import Mathlib

/-!
Verification of the BookBuddy ESP32 firmware core (presence tracking,
emotion state machine, touch classification, telemetry snapshot and
clock sync).  The definitions below are a shallow embedding of the
firmware source: global mutable state becomes an explicit `DeviceState`
threaded through step functions, `uint32_t`/`uint8_t` arithmetic is
modelled on `Nat` with explicit `% 2^32` / `% 2^8` where the C code can
wrap, and each firmware function keeps its source name.

Display, audio and WiFi plumbing (pure output effects) are not part of
the state; globals that the firmware writes but never reads
(`lastInteractionTime`, `allBooksWerePlaced`, `allBooksPlacedTime`) are
omitted from `DeviceState`.
-/

namespace BookBuddy

/-- Size of the `uint32_t` value space. -/
def u32size : Nat := 4294967296

/-- Wraparound `uint32_t` subtraction `a - b` (both arguments intended `< u32size`). -/
def u32sub (a b : Nat) : Nat := (a + u32size - b % u32size) % u32size

-- Timing constants from the firmware source.
def BOOT_CALM_TIME : Nat := 300000
def CALM_HOLD_TIME : Nat := 300000
def DEGRADE_INTERVAL : Nat := 300000
def DEGRADE_STAGES : Nat := 5
def LONG_PRESS_TIME : Nat := 2000
def NUM_BOOKS : Nat := 5

def BOOK_NAMES : List String := ["English", "Hindi", "Maths", "Marathi", "Science"]

/-- `struct BookState` from the firmware. -/
structure BookState where
  present : Bool
  wasPresent : Bool
  lastPlacedEpoch : Nat
  cumulativeSeconds : Nat
  tracking : Bool
deriving DecidableEq

/-- The 8 firmware emotions (`enum Emotion`). -/
inductive Emotion where
  | neutral
  | calm
  | happy
  | proud
  | veryProud
  | sad
  | verySad
  | reminder
deriving DecidableEq

/-- The global mutable state of the firmware that the verified claims touch. -/
structure DeviceState where
  books : List BookState
  currentBookCount : Nat
  lastBookCount : Nat
  allBooksAnnouncedOnce : Bool
  calmHoldActive : Bool
  calmHoldStartTime : Nat
  degradeActive : Bool
  degradeStartTime : Nat
  currentDegradeStage : Nat
  reminderSpoken : Bool
  inBootCalmPeriod : Bool
  bootCompleteTime : Nat
  rtcReady : Bool
  currentEmotion : Emotion
deriving DecidableEq

/-- `getRTCEpoch`: RTC unix time when the RTC is ready, else `millis()/1000`. -/
def getRTCEpoch (rtcReady : Bool) (rtcNow millisNow : Nat) : Nat :=
  if rtcReady then rtcNow else millisNow / 1000

/-- `getBookTotalSeconds`: cumulative seconds plus the live accruing span.
The live span is added only when the slot is tracking, its start epoch is
positive and the clock is strictly past the start epoch (u32 addition). -/
def getBookTotalSeconds (nowEpoch : Nat) (b : BookState) : Nat :=
  if b.tracking = true ∧ 0 < b.lastPlacedEpoch ∧ b.lastPlacedEpoch < nowEpoch then
    (b.cumulativeSeconds + (nowEpoch - b.lastPlacedEpoch)) % u32size
  else
    b.cumulativeSeconds

/-- The BOOK PLACED branch of `updateBookStates`. -/
def placeBook (nowEpoch : Nat) (b : BookState) : BookState :=
  { b with lastPlacedEpoch := nowEpoch, tracking := true }

/-- The BOOK REMOVED branch of `updateBookStates`: accrue the elapsed span
(guarded exactly as in the source), then stop tracking. -/
def removeBook (nowEpoch : Nat) (b : BookState) : BookState :=
  { b with
    cumulativeSeconds :=
      if b.tracking = true ∧ 0 < b.lastPlacedEpoch ∧ b.lastPlacedEpoch < nowEpoch then
        (b.cumulativeSeconds + (nowEpoch - b.lastPlacedEpoch)) % u32size
      else
        b.cumulativeSeconds,
    tracking := false,
    lastPlacedEpoch := 0 }

/-- One slot of the `updateBookStates` loop body: `raw` is the debounced
sensor read.  Returns the updated slot and whether a state change
(accepted Placed/Removed event) was detected. -/
def bookSlotStep (nowEpoch : Nat) (raw : Bool) (b : BookState) : BookState × Bool :=
  if raw ≠ b.wasPresent then
    ({ (if raw then placeBook nowEpoch b else removeBook nowEpoch b) with
        wasPresent := raw, present := raw }, true)
  else
    ({ b with present := raw }, false)

/-- The full `updateBookStates` loop over the five slots: returns the new
slot list, whether any change event fired, and the present count. -/
def stepBooks (nowEpoch : Nat) : List Bool → List BookState → List BookState × Bool × Nat
  | raw :: raws, b :: bs =>
    let rb := bookSlotStep nowEpoch raw b
    let rest := stepBooks nowEpoch raws bs
    (rb.1 :: rest.1, (rb.2 || rest.2.1), (if rb.1.present then 1 else 0) + rest.2.2)
  | _, bs => (bs, false, 0)

/-- The flag resets `updateBookStates` performs when a slot change event
was accepted this pass (end boot calm, reset degrade/calm-hold).  They
happen inside the source loop but are read by no later iteration, so
they are applied once per pass here. -/
def applyChangeResets (changed : Bool) (s : DeviceState) : DeviceState :=
  if changed then
    { s with inBootCalmPeriod := false, calmHoldActive := false, degradeActive := false,
             currentDegradeStage := 0, reminderSpoken := false }
  else s

/-- `lastBookCount = currentBookCount; currentBookCount = bookCount;`. -/
def applyCountUpdate (cnt : Nat) (s : DeviceState) : DeviceState :=
  { s with lastBookCount := s.currentBookCount, currentBookCount := cnt }

/-- The all-five-books celebration one-shot of `updateBookStates` (which
starts the calm-hold window) and its re-arm once the count is below 5.
Returns the state and whether the `AllPlacedEvent` fired. -/
def applyCelebration (nowMillis : Nat) (s : DeviceState) : DeviceState × Bool :=
  if s.currentBookCount = 5 ∧ s.lastBookCount < 5 ∧ s.allBooksAnnouncedOnce = false then
    ({ s with allBooksAnnouncedOnce := true, calmHoldActive := true,
              calmHoldStartTime := nowMillis, degradeActive := false,
              currentDegradeStage := 0, reminderSpoken := false,
              currentEmotion := .calm }, true)
  else if s.currentBookCount < 5 then
    ({ s with allBooksAnnouncedOnce := false }, false)
  else
    (s, false)

/-- `updateBookStates`: debounced sampling of all five slots, the
change-event flag resets, the book count update, and the one-shot
all-books-placed celebration.  Returns the new state and whether the
`AllPlacedEvent` (celebration) fired. -/
def updateBookStates (nowMillis nowEpoch : Nat) (raws : List Bool) (s : DeviceState) :
    DeviceState × Bool :=
  applyCelebration nowMillis
    (applyCountUpdate (stepBooks nowEpoch raws s.books).2.2
      (applyChangeResets (stepBooks nowEpoch raws s.books).2.1
        { s with books := (stepBooks nowEpoch raws s.books).1 }))

/-- The degrade-stage computation of `calculateEmotion`:
`uint8_t stage = elapsed / DEGRADE_INTERVAL;` truncates the `uint32_t`
quotient to 8 bits before the clamp `if (stage > DEGRADE_STAGES)`. -/
def degradeStageCode (elapsed : Nat) : Nat :=
  let stage := (elapsed / DEGRADE_INTERVAL) % 256
  if DEGRADE_STAGES < stage then DEGRADE_STAGES else stage

/-- The `switch (stage)` of the degrade phase: stage-to-emotion table plus
the one-shot reminder at stage 5.  Returns the state and whether the
`ReminderEvent` fired. -/
def emotionForStage (stage : Nat) (s : DeviceState) : DeviceState × Bool :=
  match stage with
  | 0 => ({ s with currentEmotion := .calm }, false)
  | 1 => ({ s with currentEmotion := .neutral }, false)
  | 2 => ({ s with currentEmotion := .neutral }, false)
  | 3 => ({ s with currentEmotion := .sad }, false)
  | 4 => ({ s with currentEmotion := .verySad }, false)
  | 5 =>
    if s.reminderSpoken then ({ s with currentEmotion := .reminder }, false)
    else ({ s with currentEmotion := .reminder, reminderSpoken := true }, true)
  | _ => (s, false)

/-- Phase 2 of `calculateEmotion` (degradation) and the final
book-count emotion table. -/
def calcEmotionDegrade (nowMillis : Nat) (s : DeviceState) : DeviceState × Bool :=
  if s.degradeActive then
    let stage := degradeStageCode (u32sub nowMillis s.degradeStartTime)
    emotionForStage stage { s with currentDegradeStage := stage }
  else
    match s.currentBookCount with
    | 0 => ({ s with currentEmotion := .neutral }, false)
    | 1 => ({ s with currentEmotion := .calm }, false)
    | 2 => ({ s with currentEmotion := .calm }, false)
    | 3 => ({ s with currentEmotion := .happy }, false)
    | 4 => ({ s with currentEmotion := .happy }, false)
    | 5 => ({ s with currentEmotion := .proud }, false)
    | _ => (s, false)

/-- Phase 1 of `calculateEmotion` (calm hold after all books placed). -/
def calcEmotionHold (nowMillis : Nat) (s : DeviceState) : DeviceState × Bool :=
  if s.calmHoldActive then
    if u32sub nowMillis s.calmHoldStartTime < CALM_HOLD_TIME then
      ({ s with currentEmotion := .calm }, false)
    else
      calcEmotionDegrade nowMillis
        { s with calmHoldActive := false, degradeActive := true,
                 degradeStartTime := nowMillis, currentDegradeStage := 0 }
  else
    calcEmotionDegrade nowMillis s

/-- `calculateEmotion`: boot calm period, then calm hold, then degrade,
then the book-count table.  The returned `Bool` reports a `ReminderEvent`
fire on this tick. -/
def calculateEmotion (nowMillis : Nat) (s : DeviceState) : DeviceState × Bool :=
  if s.inBootCalmPeriod then
    if u32sub nowMillis s.bootCompleteTime < BOOT_CALM_TIME then
      ({ s with currentEmotion := .calm }, false)
    else
      calcEmotionHold nowMillis { s with inBootCalmPeriod := false }
  else
    calcEmotionHold nowMillis s

/-- Intents emitted by the touch handler (`showQuickStatus` /
`showDetailedStats` calls in the source). -/
inductive Intent where
  | quickStatus
  | detailedStats
deriving DecidableEq

/-- The release classification of `handleTouchSensor`, given the computed
press duration.  Long press shows detailed stats and changes nothing;
a press strictly longer than 50 ms but shorter than `LONG_PRESS_TIME`
is a short press and resets the calm-hold/degrade machinery when one of
the two is active; anything of 50 ms or less is ignored. -/
def touchRelease (pressDuration : Nat) (s : DeviceState) : DeviceState × Option Intent :=
  if LONG_PRESS_TIME ≤ pressDuration then
    (s, some .detailedStats)
  else if 50 < pressDuration then
    (if s.degradeActive || s.calmHoldActive then
      { s with calmHoldActive := false, degradeActive := false,
               currentDegradeStage := 0, reminderSpoken := false }
     else s, some .quickStatus)
  else
    (s, none)

/-! ### Clock-sync endpoint (`/api/synctime` handler in `setupWebServer`)

The body parsing mirrors the Arduino `String` calls of the source:
`indexOf("\"epoch\":")`, `substring`, `trim`, `indexOf` of a closing
brace, `substring`, `trim`, and `toInt` (newlib `atol`: skip whitespace,
optional sign, a digit run, saturating at the `long` bounds), whose
`long` result is converted to `uint32_t` modulo `2^32`. -/

/-- Whitespace as `isspace` sees it (space, tab, newline, vertical tab,
form feed, carriage return). -/
def isWsChar (c : Char) : Bool :=
  c = ' ' || c = '\t' || c = '\n' || c = '\r' || c.toNat = 11 || c.toNat = 12

/-- Arduino `String::trim`: drop leading and trailing whitespace. -/
def trimChars (s : List Char) : List Char :=
  ((s.dropWhile isWsChar).reverse.dropWhile isWsChar).reverse

/-- The suffix after the first occurrence of `pat`
(`indexOf(pat)` + `substring(idx + pat.length)`), `none` when absent. -/
def afterPat (pat : List Char) : List Char → Option (List Char)
  | [] => none
  | c :: rest =>
    if pat.isPrefixOf (c :: rest) then some ((c :: rest).drop pat.length)
    else afterPat pat rest

/-- Index of the first occurrence of a character, as `String::indexOf(char)`. -/
def idxOfChar (c : Char) : List Char → Option Nat
  | [] => none
  | d :: rest => if d = c then some 0 else (idxOfChar c rest).map (· + 1)

def rbraceChar : Char := Char.ofNat 125

/-- The epoch-string extraction of the sync handler. -/
def extractEpochStr (body : List Char) : Option (List Char) :=
  match afterPat ("\"epoch\":".toList) body with
  | none => none
  | some t =>
    let t1 := trimChars t
    let t2 := match idxOfChar rbraceChar t1 with
              | some i => t1.take i
              | none => t1
    some (trimChars t2)

/-- Newlib `atol` (as called by Arduino `String::toInt`): skip leading
whitespace, optional sign, longest digit run (empty run gives 0),
saturating at the 32-bit `long` bounds. -/
def atolSat (s : List Char) : Int :=
  let s1 := s.dropWhile isWsChar
  let signed : Bool × List Char :=
    match s1 with
    | c :: rest =>
      if c = '-' then (true, rest) else if c = '+' then (false, rest) else (false, s1)
    | [] => (false, [])
  let v : Nat := (signed.2.takeWhile Char.isDigit).foldl (fun a c => a * 10 + (c.toNat - 48)) 0
  if signed.1 then max (-2147483648 : Int) (-(v : Int))
  else min (2147483647 : Int) (v : Int)

/-- C++ conversion of a signed `long` value to `uint32_t` (modulo `2^32`). -/
def toUInt32Nat (i : Int) : Nat := (i % (u32size : Int)).toNat

/-- The epoch value the handler ends up comparing against `1000000000`
(0 when the body has no `"epoch":` key). -/
def parsedEpoch (body : List Char) : Nat :=
  match extractEpochStr body with
  | none => 0
  | some t => toUInt32Nat (atolSat t)

/-- Two-digit zero padding of `sprintf("%02d", n)` for `n < 100`. -/
def pad2 (n : Nat) : String := if n < 10 then "0" ++ toString n else toString n

/-- The `HH:MM:SS` string built from `rtc.now()` right after
`rtc.adjust(DateTime(epoch))`.  RTClib's `DateTime(uint32_t)` treats its
argument as unix seconds; for the accepted epochs (> 10^9, hence past
2000-01-01) hour, minute and second are the civil time-of-day below. -/
def formatHMS (epoch : Nat) : String :=
  pad2 (epoch / 3600 % 24) ++ ":" ++ pad2 (epoch / 60 % 60) ++ ":" ++ pad2 (epoch % 60)

/-- The three response shapes of the sync handler. -/
inductive SyncResp where
  | noRtc
  | invalid
  | ok (newTime : String)
deriving DecidableEq

/-- HTTP status codes the handler sends with each response shape. -/
def syncStatusCode : SyncResp → Nat
  | .noRtc => 500
  | .invalid => 400
  | .ok _ => 200

/-- The `/api/synctime` body handler: returns the response, the (possibly
updated) RTC epoch, and the (never touched) device state. -/
def syncTimeHandler (s : DeviceState) (rtcEpoch : Nat) (body : List Char) :
    SyncResp × Nat × DeviceState :=
  if s.rtcReady = false then (.noRtc, rtcEpoch, s)
  else
    match extractEpochStr body with
    | some t =>
      if 1000000000 < toUInt32Nat (atolSat t) then
        (.ok (formatHMS (toUInt32Nat (atolSat t))), toUInt32Nat (atolSat t), s)
      else (.invalid, rtcEpoch, s)
    | none => (.invalid, rtcEpoch, s)

/-! ### Telemetry snapshot assembly

`sendWebSocketUpdate` (push) and the `/api/status` lambda (pull) each
build a JSON object field by field from the same globals.  The assembly
is modelled as an ordered key/value list; `uptime` and the RTC date
string are inputs resolved by the caller. -/

/-- One entry of the `books` array of the snapshot. -/
structure BookEntry where
  name : String
  present : Bool
  totalSeconds : Nat
deriving DecidableEq

/-- JSON values occurring in the snapshot. -/
inductive JVal where
  | str : String → JVal
  | num : Nat → JVal
  | bool : Bool → JVal
  | arr : List BookEntry → JVal
deriving DecidableEq

/-- `getEmotionName`. -/
def getEmotionName : Emotion → String
  | .neutral => "Neutral"
  | .calm => "Calm"
  | .happy => "Happy"
  | .proud => "Proud"
  | .veryProud => "Very Proud"
  | .sad => "Sad"
  | .verySad => "Very Sad"
  | .reminder => "Reminder"

/-- The `books` array loop shared by both assemblies.  Every iteration's
`getBookTotalSeconds(i)` performs its own `getRTCEpoch()` read; `es`
lists, call by call, the epoch that read observes, so a clock tick
between iterations is representable. -/
def bookEntries (es : List Nat) (books : List BookState) : List BookEntry :=
  List.zipWith
    (fun nb e => { name := nb.1, present := nb.2.present,
                   totalSeconds := getBookTotalSeconds e nb.2 })
    (List.zip BOOK_NAMES books) es

/-- The `totalSecs` accumulation loop shared by both assemblies
(`uint32_t` addition).  As in `bookEntries`, `es` lists the epoch each
iteration's own `getRTCEpoch()` read observes. -/
def totalStudySecondsCode (es : List Nat) (books : List BookState) : Nat :=
  (List.zip books es).foldl (fun a be => (a + getBookTotalSeconds be.2 be.1) % u32size) 0

/-- The push snapshot built by `sendWebSocketUpdate`, in assembly order.
`esA` carries the five clock reads of the books-array loop, `esB` the
five of the subsequent totals loop: the source performs up to ten
independent `getRTCEpoch()` calls per assembly. -/
def pushSnapshot (uptime : Nat) (dateStr : String) (esA esB : List Nat) (s : DeviceState) :
    List (String × JVal) :=
  [("status", .str "live"),
   ("uptime", .num uptime),
   ("emotion", .str (getEmotionName s.currentEmotion)),
   ("booksPlaced", .num s.currentBookCount),
   ("time", .str (if s.rtcReady then dateStr else "N/A")),
   ("books", .arr (bookEntries esA s.books)),
   ("totalStudySeconds", .num (totalStudySecondsCode esB s.books)),
   ("degradeStage", .num s.currentDegradeStage),
   ("bootCalm", .bool s.inBootCalmPeriod),
   ("calmHold", .bool s.calmHoldActive),
   ("degradeActive", .bool s.degradeActive)]

/-- The pull snapshot built by the `/api/status` handler, in assembly
order, with the same two loops of per-call clock reads as the push. -/
def pullSnapshot (uptime : Nat) (dateStr : String) (esA esB : List Nat) (s : DeviceState) :
    List (String × JVal) :=
  [("status", .str "live"),
   ("uptime", .num uptime),
   ("emotion", .str (getEmotionName s.currentEmotion)),
   ("booksPlaced", .num s.currentBookCount),
   ("time", .str (if s.rtcReady then dateStr else "N/A")),
   ("books", .arr (bookEntries esA s.books)),
   ("totalStudySeconds", .num (totalStudySecondsCode esB s.books)),
   ("degradeStage", .num s.currentDegradeStage),
   ("bootCalm", .bool s.inBootCalmPeriod)]

/-! ### Concrete probe values and trace helpers -/

/-- A freshly-booted device state (all slots empty, boot calm active,
RTC present), as initialized by `setup()`. -/
def bootState : DeviceState where
  books := List.replicate 5
    { present := false, wasPresent := false, lastPlacedEpoch := 0,
      cumulativeSeconds := 0, tracking := false }
  currentBookCount := 0
  lastBookCount := 0
  allBooksAnnouncedOnce := false
  calmHoldActive := false
  calmHoldStartTime := 0
  degradeActive := false
  degradeStartTime := 0
  currentDegradeStage := 0
  reminderSpoken := false
  inBootCalmPeriod := true
  bootCompleteTime := 0
  rtcReady := true
  currentEmotion := .calm

/-- `bootState` after the degrade phase was entered at millis 0. -/
def degradeProbeState : DeviceState :=
  { bootState with inBootCalmPeriod := false, degradeActive := true }

/-- A slot that was accepted as Placed while the clock read epoch 0
and has 7 s accrued from earlier sessions. -/
def slotEpochZero : BookState where
  present := true
  wasPresent := true
  lastPlacedEpoch := 0
  cumulativeSeconds := 7
  tracking := true

/-- A sync request body whose epoch field is the negative literal -5. -/
def negEpochBody : List Char := "\x7b\"epoch\":-5\x7d".toList

/-- A sync request body without an epoch field. -/
def noEpochBody : List Char := "\x7b\"bad\":1\x7d".toList

/-- A sync request body carrying epoch 1767225600 (2026-01-01 00:00:00 UTC). -/
def goodEpochBody : List Char := "\x7b\"epoch\": 1767225600\x7d".toList

/-- Five slots with slot 0 tracking since epoch 10, for the snapshot
assembled across an RTC second boundary. -/
def tickBooks : List BookState :=
  [⟨true, true, 10, 0, true⟩,
   ⟨false, false, 0, 0, false⟩,
   ⟨false, false, 0, 0, false⟩,
   ⟨false, false, 0, 0, false⟩,
   ⟨false, false, 0, 0, false⟩]

/-- Number of `ReminderEvent` fires along a sequence of emotion ticks
(no intervening change events or touch presses). -/
def countReminderFires : List Nat → DeviceState → Nat
  | [], _ => 0
  | t :: ts, s =>
    (if (calculateEmotion t s).2 then 1 else 0) + countReminderFires ts (calculateEmotion t s).1

/-! ### Helper lemmas -/

theorem getBookTotalSeconds_eq (n : Nat) (b : BookState) (hc : b.cumulativeSeconds < u32size) :
    getBookTotalSeconds n b =
      (b.cumulativeSeconds +
        (if b.tracking = true ∧ 0 < b.lastPlacedEpoch ∧ b.lastPlacedEpoch < n
         then n - b.lastPlacedEpoch else 0)) % u32size := by
  unfold getBookTotalSeconds
  split_ifs with h
  · rfl
  · rw [Nat.add_zero, Nat.mod_eq_of_lt hc]

theorem getBookTotalSeconds_mono (b : BookState) (n1 n2 : Nat) (h12 : n1 ≤ n2)
    (hov : b.cumulativeSeconds + (n2 - b.lastPlacedEpoch) < u32size) :
    getBookTotalSeconds n1 b ≤ getBookTotalSeconds n2 b := by
  unfold getBookTotalSeconds
  split_ifs with h1 h2 h2
  · have hov1 : b.cumulativeSeconds + (n1 - b.lastPlacedEpoch) < u32size := by omega
    rw [Nat.mod_eq_of_lt hov1, Nat.mod_eq_of_lt hov]
    omega
  · exact absurd ⟨h1.1, h1.2.1, lt_of_lt_of_le h1.2.2 h12⟩ h2
  · rw [Nat.mod_eq_of_lt hov]
    omega
  · exact le_refl _

theorem bookSlotStep_cum_mono (nE : Nat) (raw : Bool) (b : BookState)
    (h : b.cumulativeSeconds + nE < u32size) :
    b.cumulativeSeconds ≤ (bookSlotStep nE raw b).1.cumulativeSeconds := by
  unfold bookSlotStep placeBook removeBook
  split_ifs with h1 h2 h3 <;> simp only []
  · exact le_refl _
  · have hlt : b.cumulativeSeconds + (nE - b.lastPlacedEpoch) < u32size := by omega
    rw [Nat.mod_eq_of_lt hlt]
    omega
  · exact le_refl _
  · exact le_refl _

theorem stepBooks_cum_mono (nE : Nat) :
    ∀ (raws : List Bool) (bs : List BookState),
      (∀ b ∈ bs, b.cumulativeSeconds + nE < u32size) →
      List.Forall₂ (fun o w => o.cumulativeSeconds ≤ w.cumulativeSeconds) bs
        (stepBooks nE raws bs).1
  | [], bs, _ => by
    induction bs with
    | nil => exact .nil
    | cons b bs ih => exact .cons (le_refl _) (by simpa using ih)
  | raw :: raws, [], _ => .nil
  | raw :: raws, b :: bs, h => by
    simp only [stepBooks]
    exact .cons (bookSlotStep_cum_mono nE raw b (h b (by simp)))
      (stepBooks_cum_mono nE raws bs (fun x hx => h x (by simp [hx])))

theorem stepBooks_count_le (nE : Nat) :
    ∀ (raws : List Bool) (bs : List BookState), (stepBooks nE raws bs).2.2 ≤ raws.length
  | [], bs => by simp [stepBooks]
  | raw :: raws, [] => by simp [stepBooks]
  | raw :: raws, b :: bs => by
    simp only [stepBooks, List.length_cons]
    have := stepBooks_count_le nE raws bs
    split_ifs <;> omega

theorem stepBooks_count_eq (nE : Nat) :
    ∀ (raws : List Bool) (bs : List BookState), raws.length = bs.length →
      (stepBooks nE raws bs).2.2 = (stepBooks nE raws bs).1.countP (fun b => b.present)
  | [], [], _ => by simp [stepBooks]
  | [], b :: bs, h => by simp at h
  | raw :: raws, [], h => by simp at h
  | raw :: raws, b :: bs, h => by
    simp only [stepBooks, List.countP_cons]
    have ih := stepBooks_count_eq nE raws bs (by simpa using h)
    split_ifs <;> simp_all <;> omega

theorem applyCelebration_books (nM : Nat) (s : DeviceState) :
    (applyCelebration nM s).1.books = s.books := by
  unfold applyCelebration
  split_ifs <;> rfl

theorem applyCelebration_count (nM : Nat) (s : DeviceState) :
    (applyCelebration nM s).1.currentBookCount = s.currentBookCount := by
  unfold applyCelebration
  split_ifs <;> rfl

theorem applyChangeResets_books (c : Bool) (s : DeviceState) :
    (applyChangeResets c s).books = s.books := by
  unfold applyChangeResets
  split_ifs <;> rfl

theorem applyChangeResets_count (c : Bool) (s : DeviceState) :
    (applyChangeResets c s).currentBookCount = s.currentBookCount := by
  unfold applyChangeResets
  split_ifs <;> rfl

theorem applyChangeResets_announced (c : Bool) (s : DeviceState) :
    (applyChangeResets c s).allBooksAnnouncedOnce = s.allBooksAnnouncedOnce := by
  unfold applyChangeResets
  split_ifs <;> rfl

theorem updateBookStates_books (nM nE : Nat) (raws : List Bool) (s : DeviceState) :
    (updateBookStates nM nE raws s).1.books = (stepBooks nE raws s.books).1 := by
  unfold updateBookStates
  rw [applyCelebration_books]
  unfold applyCountUpdate
  rw [applyChangeResets_books]

theorem updateBookStates_count (nM nE : Nat) (raws : List Bool) (s : DeviceState) :
    (updateBookStates nM nE raws s).1.currentBookCount = (stepBooks nE raws s.books).2.2 := by
  unfold updateBookStates
  rw [applyCelebration_count]
  rfl

theorem emotionForStage_books (st : Nat) (s : DeviceState) :
    (emotionForStage st s).1.books = s.books := by
  unfold emotionForStage
  split <;> first | rfl | (split_ifs <;> rfl)

theorem calcEmotionDegrade_books (n : Nat) (s : DeviceState) :
    (calcEmotionDegrade n s).1.books = s.books := by
  unfold calcEmotionDegrade
  split_ifs
  · exact (emotionForStage_books _ _).trans rfl
  · split <;> rfl

theorem calcEmotionHold_books (n : Nat) (s : DeviceState) :
    (calcEmotionHold n s).1.books = s.books := by
  unfold calcEmotionHold
  split_ifs
  · rfl
  · exact (calcEmotionDegrade_books _ _).trans rfl
  · exact calcEmotionDegrade_books _ _

theorem calculateEmotion_books (n : Nat) (s : DeviceState) :
    (calculateEmotion n s).1.books = s.books := by
  unfold calculateEmotion
  split_ifs
  · rfl
  · exact (calcEmotionHold_books _ _).trans rfl
  · exact calcEmotionHold_books _ _

theorem touchRelease_books (d : Nat) (s : DeviceState) :
    (touchRelease d s).1.books = s.books := by
  unfold touchRelease
  split_ifs <;> rfl

theorem syncTimeHandler_state (s : DeviceState) (r : Nat) (body : List Char) :
    (syncTimeHandler s r body).2.2 = s := by
  unfold syncTimeHandler
  split_ifs
  · rfl
  · split
    · split_ifs <;> rfl
    · rfl

theorem emotionForStage_spoken (st : Nat) (s : DeviceState) (h : s.reminderSpoken = true) :
    (emotionForStage st s).2 = false ∧ (emotionForStage st s).1.reminderSpoken = true := by
  unfold emotionForStage
  split <;> simp_all

theorem emotionForStage_fire (st : Nat) (s : DeviceState)
    (h : (emotionForStage st s).2 = true) :
    (emotionForStage st s).1.reminderSpoken = true := by
  unfold emotionForStage at h ⊢
  split at h <;> simp_all
  split_ifs at h <;> simp_all

theorem calcEmotionDegrade_spoken (n : Nat) (s : DeviceState) (h : s.reminderSpoken = true) :
    (calcEmotionDegrade n s).2 = false ∧ (calcEmotionDegrade n s).1.reminderSpoken = true := by
  unfold calcEmotionDegrade
  split_ifs with hd
  · exact emotionForStage_spoken _ _ (by simp [h])
  · split <;> simp_all

theorem calcEmotionDegrade_fire (n : Nat) (s : DeviceState)
    (h : (calcEmotionDegrade n s).2 = true) :
    (calcEmotionDegrade n s).1.reminderSpoken = true := by
  unfold calcEmotionDegrade at h ⊢
  split_ifs at h ⊢ with hd
  · exact emotionForStage_fire _ _ h
  · split at h <;> simp_all

theorem calcEmotionHold_spoken (n : Nat) (s : DeviceState) (h : s.reminderSpoken = true) :
    (calcEmotionHold n s).2 = false ∧ (calcEmotionHold n s).1.reminderSpoken = true := by
  unfold calcEmotionHold
  split_ifs with hc hcexp
  · simp_all
  · exact calcEmotionDegrade_spoken _ _ (by simp [h])
  · exact calcEmotionDegrade_spoken _ _ h

theorem calcEmotionHold_fire (n : Nat) (s : DeviceState)
    (h : (calcEmotionHold n s).2 = true) :
    (calcEmotionHold n s).1.reminderSpoken = true := by
  unfold calcEmotionHold at h ⊢
  split_ifs at h ⊢ with hc hcexp
  · exact calcEmotionDegrade_fire _ _ h
  · exact calcEmotionDegrade_fire _ _ h

theorem calculateEmotion_spoken (n : Nat) (s : DeviceState) (h : s.reminderSpoken = true) :
    (calculateEmotion n s).2 = false ∧ (calculateEmotion n s).1.reminderSpoken = true := by
  unfold calculateEmotion
  split_ifs with hb hbe
  · simp_all
  · exact calcEmotionHold_spoken _ _ (by simp [h])
  · exact calcEmotionHold_spoken _ _ h

theorem calculateEmotion_fire (n : Nat) (s : DeviceState)
    (h : (calculateEmotion n s).2 = true) :
    (calculateEmotion n s).1.reminderSpoken = true := by
  unfold calculateEmotion at h ⊢
  split_ifs at h ⊢ with hb hbe
  · exact calcEmotionHold_fire _ _ h
  · exact calcEmotionHold_fire _ _ h

theorem countReminderFires_spoken (ts : List Nat) :
    ∀ s : DeviceState, s.reminderSpoken = true → countReminderFires ts s = 0 := by
  induction ts with
  | nil => intro s _; rfl
  | cons t ts ih =>
    intro s h
    have h2 := calculateEmotion_spoken t s h
    simp [countReminderFires, h2.1, ih _ h2.2]

theorem countReminderFires_le_one (ts : List Nat) :
    ∀ s : DeviceState, countReminderFires ts s ≤ 1 := by
  induction ts with
  | nil => intro s; simp [countReminderFires]
  | cons t ts ih =>
    intro s
    by_cases hf : (calculateEmotion t s).2 = true
    · have hs := calculateEmotion_fire t s hf
      simp [countReminderFires, hf, countReminderFires_spoken ts _ hs]
    · simp only [countReminderFires, if_neg hf]
      simpa using ih (calculateEmotion t s).1

theorem calculateEmotion_fires_at_stage5 (n : Nat) (s : DeviceState)
    (hb : s.inBootCalmPeriod = false) (hc : s.calmHoldActive = false)
    (hd : s.degradeActive = true) (hs : s.reminderSpoken = false)
    (h5 : degradeStageCode (u32sub n s.degradeStartTime) = 5) :
    (calculateEmotion n s).2 = true := by
  unfold calculateEmotion calcEmotionHold calcEmotionDegrade
  simp [hb, hc, hd, h5, emotionForStage, hs]

theorem applyCelebration_fire_iff (nM : Nat) (s : DeviceState)
    (hInv : s.allBooksAnnouncedOnce = true → s.lastBookCount = 5) :
    (applyCelebration nM s).2 = true ↔
      (s.currentBookCount = 5 ∧ s.lastBookCount < 5) := by
  unfold applyCelebration
  split_ifs with h1 h2
  · simp only [true_iff]
    exact ⟨h1.1, h1.2.1⟩
  · simp only [Bool.false_eq_true, false_iff]
    rintro ⟨hc5, _⟩
    omega
  · simp only [Bool.false_eq_true, false_iff]
    rintro ⟨hc5, hl5⟩
    rcases Bool.eq_false_or_eq_true s.allBooksAnnouncedOnce with ha | ha
    · exact absurd (hInv ha) (by omega)
    · exact h1 ⟨hc5, hl5, ha⟩

theorem applyCelebration_inv (nM : Nat) (s : DeviceState) (hle : s.currentBookCount ≤ 5) :
    (applyCelebration nM s).1.allBooksAnnouncedOnce = true →
      (applyCelebration nM s).1.currentBookCount = 5 := by
  unfold applyCelebration
  split_ifs with h1 h2
  · intro _
    exact h1.1
  · intro hfalse
    simp at hfalse
  · intro _
    dsimp only
    omega

theorem updateBookStates_fire_iff (nM nE : Nat) (raws : List Bool) (s : DeviceState)
    (hInv : s.allBooksAnnouncedOnce = true → s.currentBookCount = 5) :
    (updateBookStates nM nE raws s).2 = true ↔
      ((stepBooks nE raws s.books).2.2 = 5 ∧ s.currentBookCount < 5) := by
  unfold updateBookStates
  rw [applyCelebration_fire_iff]
  · simp [applyCountUpdate, applyChangeResets_count]
  · intro h
    simp only [applyCountUpdate] at h ⊢
    rw [applyChangeResets_count]
    apply hInv
    rw [applyChangeResets_announced] at h
    exact h

theorem updateBookStates_inv (nM nE : Nat) (raws : List Bool) (s : DeviceState)
    (hlen : raws.length = 5) :
    (updateBookStates nM nE raws s).1.allBooksAnnouncedOnce = true →
      (updateBookStates nM nE raws s).1.currentBookCount = 5 := by
  unfold updateBookStates
  apply applyCelebration_inv
  have := stepBooks_count_le nE raws s.books
  simp only [applyCountUpdate]
  omega

theorem foldl_mod_add {α : Type} (f : α → Nat) (l : List α) :
    ∀ r : Nat, r < u32size →
      l.foldl (fun a x => (a + f x) % u32size) r = (r + (l.map f).sum) % u32size := by
  induction l with
  | nil =>
    intro r hr
    simp [Nat.mod_eq_of_lt hr]
  | cons b l ih =>
    intro r hr
    have hpos : 0 < u32size := by decide
    simp only [List.foldl_cons, List.map_cons, List.sum_cons]
    rw [ih _ (Nat.mod_lt _ hpos), Nat.mod_add_mod, Nat.add_assoc]

theorem totalStudySecondsCode_eq (es : List Nat) (books : List BookState) :
    totalStudySecondsCode es books =
      ((List.zip books es).map (fun be => getBookTotalSeconds be.2 be.1)).sum % u32size := by
  unfold totalStudySecondsCode
  rw [foldl_mod_add (fun be => getBookTotalSeconds be.2 be.1) (List.zip books es) 0 (by decide),
     Nat.zero_add]

theorem bookEntries_total_sum :
    ∀ (ns : List String) (bs : List BookState) (es : List Nat), bs.length ≤ ns.length →
      ((List.zipWith
          (fun nb e => ({ name := nb.1, present := nb.2.present,
                          totalSeconds := getBookTotalSeconds e nb.2 } : BookEntry))
          (List.zip ns bs) es).map BookEntry.totalSeconds).sum =
      ((List.zip bs es).map (fun be => getBookTotalSeconds be.2 be.1)).sum
  | _, [], _, _ => by simp
  | [], b :: bs, _, h => by simp at h
  | _ :: _, _ :: _, [], _ => by simp
  | nm :: ns, b :: bs, e :: es, h => by
    simp only [List.zip_cons_cons, List.zipWith_cons_cons, List.map_cons, List.sum_cons]
    rw [bookEntries_total_sum ns bs es (by simpa using h)]

theorem bookEntries_countP :
    ∀ (ns : List String) (bs : List BookState) (es : List Nat),
      bs.length ≤ ns.length → bs.length ≤ es.length →
      (List.zipWith
          (fun nb e => ({ name := nb.1, present := nb.2.present,
                          totalSeconds := getBookTotalSeconds e nb.2 } : BookEntry))
          (List.zip ns bs) es).countP (fun e => e.present) =
        bs.countP (fun b => b.present)
  | _, [], _, _, _ => by simp
  | [], b :: bs, _, h, _ => by simp at h
  | _ :: _, b :: bs, [], _, h2 => by simp at h2
  | nm :: ns, b :: bs, e :: es, h, h2 => by
    simp only [List.zip_cons_cons, List.zipWith_cons_cons, List.countP_cons]
    rw [bookEntries_countP ns bs es (by simpa using h) (by simpa using h2)]

theorem applyCelebration_boot (nM : Nat) (s : DeviceState) :
    (applyCelebration nM s).1.inBootCalmPeriod = s.inBootCalmPeriod := by
  unfold applyCelebration
  split_ifs <;> rfl

/-! ### Claim theorems -/

/-- Claim C1.  The spec demands
`stage = min(MAX_STAGE, floor(elapsed / T_degradeInterval))`, non-decreasing
and clamped at `MAX_STAGE = 5`.  The code assigns the `uint32_t` quotient to
a `uint8_t` before clamping, so at elapsed = 76 800 000 ms (256 intervals,
representable in the u32 millisecond timer) the computed stage is 0 while
the specified value is 5, and the stage regresses from 5 (at 255 intervals)
to 0: the code contradicts its own clamp and the claimed monotonicity. -/
theorem C1_degrade_stage_wraparound :
    degradeStageCode 76500000 = 5 ∧
    degradeStageCode 76800000 = 0 ∧
    min DEGRADE_STAGES (76800000 / DEGRADE_INTERVAL) = 5 ∧
    (calculateEmotion 76800000 degradeProbeState).1.currentDegradeStage = 0 ∧
    (calculateEmotion 76500000 degradeProbeState).1.currentDegradeStage = 5 := by
  decide

/-- Claim C2 counterexample.  For a tracking slot whose accrual started at
epoch 0, the code reports `cumulativeSeconds` alone while the claimed
formula `cumulativeSeconds + (tracking ? now - lastPlacedEpoch : 0)`
adds the full clock value. -/
theorem C2_formula_counterexample :
    getBookTotalSeconds 100 slotEpochZero ≠
      slotEpochZero.cumulativeSeconds +
        (if slotEpochZero.tracking then 100 - slotEpochZero.lastPlacedEpoch else 0) := by
  decide

/-- Claim C2 (amended).  `liveTotal(slot)` equals `cumulativeSeconds` plus
the live span only under the source guards (`tracking`,
`lastPlacedEpoch > 0`, `now > lastPlacedEpoch`), as u32 arithmetic;
`liveTotal` is non-decreasing between queries at increasing `now` (absent
u32 overflow of the sum), and `cumulativeSeconds` is non-decreasing under
every operation — sampling, the emotion tick, the touch handler and the
clock-sync handler (the latter three leave the slots untouched). -/
theorem C2_liveTotal_invariant (b : BookState) (n1 n2 nM nE d r : Nat) (s : DeviceState)
    (raws : List Bool) (body : List Char)
    (hc : b.cumulativeSeconds < u32size)
    (h12 : n1 ≤ n2)
    (hov : b.cumulativeSeconds + (n2 - b.lastPlacedEpoch) < u32size)
    (hovs : ∀ x ∈ s.books, x.cumulativeSeconds + nE < u32size) :
    getBookTotalSeconds n2 b =
      (b.cumulativeSeconds +
        (if b.tracking = true ∧ 0 < b.lastPlacedEpoch ∧ b.lastPlacedEpoch < n2
         then n2 - b.lastPlacedEpoch else 0)) % u32size ∧
    getBookTotalSeconds n1 b ≤ getBookTotalSeconds n2 b ∧
    List.Forall₂ (fun o w => o.cumulativeSeconds ≤ w.cumulativeSeconds) s.books
      (updateBookStates nM nE raws s).1.books ∧
    (calculateEmotion nM s).1.books = s.books ∧
    (touchRelease d s).1.books = s.books ∧
    (syncTimeHandler s r body).2.2.books = s.books := by
  refine ⟨getBookTotalSeconds_eq n2 b hc, getBookTotalSeconds_mono b n1 n2 h12 hov, ?_,
         calculateEmotion_books nM s, touchRelease_books d s,
         by rw [syncTimeHandler_state]⟩
  rw [updateBookStates_books]
  exact stepBooks_cum_mono nE raws s.books hovs

/-- Claim C2 witness: a slot placed at epoch 50 with 7 s accrued, queried
at epochs 60 and 100, and one sampling pass over a fresh device. -/
theorem C2_liveTotal_invariant_witness :
    getBookTotalSeconds 60 ⟨true, true, 50, 7, true⟩ ≤
      getBookTotalSeconds 100 ⟨true, true, 50, 7, true⟩ ∧
    List.Forall₂ (fun o w => o.cumulativeSeconds ≤ w.cumulativeSeconds) bootState.books
      (updateBookStates 0 123 [true, false, false, false, false] bootState).1.books := by
  have h := C2_liveTotal_invariant ⟨true, true, 50, 7, true⟩ 60 100 0 123 70 0 bootState
    [true, false, false, false, false] noEpochBody (by decide) (by decide) (by decide)
    (by decide)
  exact ⟨h.2.1, h.2.2.1⟩

/-- Claim C3 counterexample.  A 100 ms short press during the boot calm
period emits `QuickStatusIntent` but leaves `inBootCalmPeriod` set:
a qualifying interaction does not end BootCalm. -/
theorem C3_short_press_counterexample :
    (touchRelease 100 bootState).1.inBootCalmPeriod = true ∧
    (touchRelease 100 bootState).2 = some Intent.quickStatus := by
  decide

/-- Claim C3 (amended).  While BootCalm is active (elapsed below `T_boot`)
the mood is Calm unconditionally and the phase persists; the phase leaves
BootCalm exactly on expiry of `T_boot` at the next tick (ending in Normal
when no hold/degrade flag is set) or on any accepted slot change event;
a qualifying short press does NOT end BootCalm. -/
theorem C3_bootcalm_phase (s : DeviceState) (nA nB nM nE d : Nat) (raws : List Bool)
    (hb : s.inBootCalmPeriod = true)
    (hA : u32sub nA s.bootCompleteTime < BOOT_CALM_TIME)
    (hB : BOOT_CALM_TIME ≤ u32sub nB s.bootCompleteTime)
    (hcal : s.calmHoldActive = false) (hdeg : s.degradeActive = false)
    (hd : 50 < d) (hd2 : d < LONG_PRESS_TIME)
    (hch : (stepBooks nE raws s.books).2.1 = true) :
    ((calculateEmotion nA s).1.currentEmotion = Emotion.calm ∧
     (calculateEmotion nA s).1.inBootCalmPeriod = true) ∧
    ((calculateEmotion nB s).1.inBootCalmPeriod = false ∧
     (calculateEmotion nB s).1.calmHoldActive = false ∧
     (calculateEmotion nB s).1.degradeActive = false) ∧
    (updateBookStates nM nE raws s).1.inBootCalmPeriod = false ∧
    ((touchRelease d s).1.inBootCalmPeriod = true ∧
     (touchRelease d s).2 = some Intent.quickStatus) := by
  refine ⟨?_, ?_, ?_, ?_⟩
  · unfold calculateEmotion
    simp [hb, hA]
  · have hB' : ¬ u32sub nB s.bootCompleteTime < BOOT_CALM_TIME := Nat.not_lt.mpr hB
    unfold calculateEmotion calcEmotionHold calcEmotionDegrade
    simp only [hb, hB', if_true, if_false, reduceIte]
    simp only [hcal, hdeg]
    simp only [Bool.false_eq_true, if_false, reduceIte]
    split <;> simp_all
  · unfold updateBookStates
    rw [applyCelebration_boot]
    simp only [applyCountUpdate]
    unfold applyChangeResets
    rw [hch]
    simp
  · have h1 : ¬ LONG_PRESS_TIME ≤ d := by omega
    unfold touchRelease
    simp [h1, hd, hcal, hdeg, hb]

/-- Claim C3 witness: a fresh boot, ticks at 0 ms and 300 000 ms, one
placed-slot change event and a 100 ms short press. -/
theorem C3_bootcalm_phase_witness :
    (calculateEmotion 0 bootState).1.currentEmotion = Emotion.calm ∧
    (calculateEmotion 300000 bootState).1.inBootCalmPeriod = false ∧
    (updateBookStates 0 10 [true, false, false, false, false] bootState).1.inBootCalmPeriod
      = false ∧
    (touchRelease 100 bootState).1.inBootCalmPeriod = true := by
  have h := C3_bootcalm_phase bootState 0 300000 0 10 100 [true, false, false, false, false]
    rfl (by decide) (by decide) rfl rfl (by decide) (by decide) (by decide)
  exact ⟨h.1.1, h.2.1.1, h.2.2.1, h.2.2.2.1⟩

/-- Claim C4 counterexample.  A press of exactly 50 ms — inside the
claimed short-press range `50 ms ≤ d < 2000 ms` — emits nothing: the code
requires `pressDuration > 50` strictly. -/
theorem C4_boundary_counterexample :
    (touchRelease 50 bootState).2 = none ∧
    ¬ (touchRelease 50 bootState).2 = some Intent.quickStatus := by
  decide

/-- Claim C4 (amended).  On release of a press of duration `d`:
`d ≤ 50 ms` is ignored (no intent, no state change); `50 < d < 2000 ms`
is a short press emitting `QuickStatusIntent` and resetting the
CalmHold/Degrade machinery (flags, stage and reminder flag all cleared,
given the machine invariant that stage and reminder flag are clear
whenever neither phase flag is set); `d ≥ 2000 ms` is a long press
emitting `DetailedStatsIntent` with the state left untouched. -/
theorem C4_touch_classification (s : DeviceState) (d1 d2 d3 : Nat)
    (h1 : d1 ≤ 50) (h2a : 50 < d2) (h2b : d2 < LONG_PRESS_TIME) (h3 : LONG_PRESS_TIME ≤ d3)
    (hinv : (s.degradeActive || s.calmHoldActive) = false →
            s.currentDegradeStage = 0 ∧ s.reminderSpoken = false) :
    touchRelease d1 s = (s, none) ∧
    ((touchRelease d2 s).2 = some Intent.quickStatus ∧
     (touchRelease d2 s).1.calmHoldActive = false ∧
     (touchRelease d2 s).1.degradeActive = false ∧
     (touchRelease d2 s).1.currentDegradeStage = 0 ∧
     (touchRelease d2 s).1.reminderSpoken = false) ∧
    touchRelease d3 s = (s, some Intent.detailedStats) := by
  have hL : LONG_PRESS_TIME = 2000 := rfl
  refine ⟨?_, ?_, ?_⟩
  · have ha : ¬ LONG_PRESS_TIME ≤ d1 := by omega
    have hb : ¬ 50 < d1 := by omega
    unfold touchRelease
    simp [ha, hb]
  · have ha : ¬ LONG_PRESS_TIME ≤ d2 := by omega
    unfold touchRelease
    simp only [ha, if_false, reduceIte, h2a, if_true]
    cases hg : (s.degradeActive || s.calmHoldActive) with
    | true => simp [hg]
    | false =>
      have hflag := hinv hg
      have hd : s.degradeActive = false := by
        rcases Bool.or_eq_false_iff.mp hg with ⟨x, y⟩
        exact x
      have hc : s.calmHoldActive = false := by
        rcases Bool.or_eq_false_iff.mp hg with ⟨x, y⟩
        exact y
      simp [hg, hd, hc, hflag.1, hflag.2]
  · unfold touchRelease
    simp [h3]

/-- Claim C4 witness: a 50 ms press (ignored), an 1800 ms short press and
a 2500 ms long press on a fresh device (scenario E durations). -/
theorem C4_touch_classification_witness :
    touchRelease 50 bootState = (bootState, none) ∧
    (touchRelease 1800 bootState).2 = some Intent.quickStatus ∧
    touchRelease 2500 bootState = (bootState, some Intent.detailedStats) := by
  have h := C4_touch_classification bootState 50 1800 2500 (by decide) (by decide)
    (by decide) (by decide) (by decide)
  exact ⟨h.1, h.2.1.1, h.2.2⟩

/-- Claim C5 counterexample.  A tracking slot whose `lastPlacedEpoch` is 0
accrues nothing on removal at epoch 100, while the claimed
`max(0, now - lastPlacedEpoch)` is 100. -/
theorem C5_epoch_zero_counterexample :
    slotEpochZero.tracking = true ∧
    (removeBook 100 slotEpochZero).cumulativeSeconds ≠
      slotEpochZero.cumulativeSeconds + max 0 (100 - slotEpochZero.lastPlacedEpoch) := by
  decide

/-- Claim C5 (amended).  On an accepted Removed event for a tracking slot
with `lastPlacedEpoch > 0`, exactly `max(0, now - lastPlacedEpoch)`
(truncated `Nat` subtraction; zero when the clock regressed) is added to
`cumulativeSeconds` (absent u32 overflow), then tracking stops and the
epoch clears; a tracking slot with `lastPlacedEpoch = 0` adds nothing. -/
theorem C5_removed_accrual (b : BookState) (nE : Nat)
    (ht : b.tracking = true) (hl : 0 < b.lastPlacedEpoch)
    (hov : b.cumulativeSeconds + (nE - b.lastPlacedEpoch) < u32size) :
    (removeBook nE b).cumulativeSeconds = b.cumulativeSeconds + (nE - b.lastPlacedEpoch) ∧
    (removeBook nE b).tracking = false ∧
    (removeBook nE b).lastPlacedEpoch = 0 := by
  unfold removeBook
  refine ⟨?_, rfl, rfl⟩
  dsimp only
  split_ifs with h
  · exact Nat.mod_eq_of_lt hov
  · have hnl : ¬ b.lastPlacedEpoch < nE := fun hlt => h ⟨ht, hl, hlt⟩
    omega

/-- Claim C5 witness: scenario A (placed at epoch 1000, removed at 1050,
yielding 50 s) and a clock-regression removal at epoch 900 adding zero. -/
theorem C5_removed_accrual_witness :
    (removeBook 1050 ⟨true, true, 1000, 0, true⟩).cumulativeSeconds = 50 ∧
    (removeBook 900 ⟨true, true, 1000, 0, true⟩).cumulativeSeconds = 0 ∧
    (removeBook 1050 ⟨true, true, 1000, 0, true⟩).tracking = false := by
  have h1 := C5_removed_accrual ⟨true, true, 1000, 0, true⟩ 1050 rfl (by decide) (by decide)
  have h2 := C5_removed_accrual ⟨true, true, 1000, 0, true⟩ 900 rfl (by decide) (by decide)
  exact ⟨h1.1, h2.1, h1.2.1⟩

/-- Claim C6.  For every pass and trace from a state satisfying the
machine invariants: the `AllPlacedEvent` (celebration) fires on a sampling
pass iff the present count ascends to exactly 5 from fewer (so it cannot
re-fire until the count drops below 5 and the flag re-arms); the invariant
is preserved; along any sequence of emotion ticks the `ReminderEvent`
fires at most once, never when the reminder flag is already set; and the
first tick that computes degrade stage 5 with the flag clear does fire. -/
theorem C6_one_shot_events (s s2 : DeviceState) (nM nE n : Nat) (raws : List Bool)
    (ts ts2 : List Nat)
    (hlen : raws.length = 5)
    (hInv : s.allBooksAnnouncedOnce = true → s.currentBookCount = 5)
    (hb : s.inBootCalmPeriod = false) (hc : s.calmHoldActive = false)
    (hd : s.degradeActive = true) (hs : s.reminderSpoken = false)
    (h5 : degradeStageCode (u32sub n s.degradeStartTime) = 5)
    (hs2 : s2.reminderSpoken = true) :
    ((updateBookStates nM nE raws s).2 = true ↔
      ((updateBookStates nM nE raws s).1.currentBookCount = 5 ∧ s.currentBookCount < 5)) ∧
    ((updateBookStates nM nE raws s).1.allBooksAnnouncedOnce = true →
      (updateBookStates nM nE raws s).1.currentBookCount = 5) ∧
    countReminderFires ts s ≤ 1 ∧
    countReminderFires ts2 s2 = 0 ∧
    (calculateEmotion n s).2 = true := by
  refine ⟨?_, updateBookStates_inv nM nE raws s hlen, countReminderFires_le_one ts s,
         countReminderFires_spoken ts2 s2 hs2,
         calculateEmotion_fires_at_stage5 n s hb hc hd hs h5⟩
  rw [updateBookStates_count]
  exact updateBookStates_fire_iff nM nE raws s hInv

/-- Claim C6 witness: one pass placing all five books on a degrading
device at 1 500 000 ms (stage 5), a two-tick trace, and a trace from a
state whose reminder already fired. -/
theorem C6_one_shot_events_witness :
    (updateBookStates 0 100 [true, true, true, true, true] degradeProbeState).2 = true ∧
    countReminderFires [1500000, 1500001] degradeProbeState ≤ 1 ∧
    countReminderFires [1500000, 1500001]
      { degradeProbeState with reminderSpoken := true } = 0 ∧
    (calculateEmotion 1500000 degradeProbeState).2 = true := by
  have h := C6_one_shot_events degradeProbeState
    { degradeProbeState with reminderSpoken := true } 0 100 1500000
    [true, true, true, true, true] [1500000, 1500001] [1500000, 1500001]
    (by decide) (by decide) rfl rfl rfl rfl (by decide) rfl
  refine ⟨h.1.mpr (by decide), h.2.2.1, h.2.2.2.1, h.2.2.2.2⟩

/-- Claim C7 counterexample.  The body `{"epoch":-5}` carries an epoch
that is not a valid u32 (and, as an integer, is ≤ 10^9), yet the handler
answers 200 success and moves the clock: `String::toInt` parses −5 and
the `uint32_t` conversion wraps it to 4 294 967 291 > 10^9. -/
theorem C7_negative_epoch_counterexample :
    bootState.rtcReady = true ∧
    syncStatusCode (syncTimeHandler bootState 77 negEpochBody).1 = 200 ∧
    (syncTimeHandler bootState 77 negEpochBody).2.1 ≠ 77 := by
  decide

/-- Claim C7 (amended).  With no clock source the handler answers 500 and
changes nothing.  With a clock source: a body whose extracted epoch text
parses (via `atol` and u32 conversion) to at most 10^9 — including a
missing or malformed epoch field, which parses to 0 — answers 400
(distinct from 500) with clock and device state unchanged; a body parsing
above 10^9 — which includes negative literals wrapping modulo 2^32 —
answers `{success, newTime:"HH:MM:SS"}` and sets the clock to the parsed
value.  The slot state is never touched. -/
theorem C7_synctime_endpoint (s sN : DeviceState) (r : Nat) (bLow bHigh : List Char)
    (hr : s.rtcReady = true) (hrN : sN.rtcReady = false)
    (hlow : parsedEpoch bLow ≤ 1000000000)
    (hhigh : 1000000000 < parsedEpoch bHigh) :
    syncTimeHandler sN r bLow = (SyncResp.noRtc, r, sN) ∧
    syncStatusCode (syncTimeHandler sN r bLow).1 = 500 ∧
    syncTimeHandler s r bLow = (SyncResp.invalid, r, s) ∧
    syncStatusCode (syncTimeHandler s r bLow).1 = 400 ∧
    syncTimeHandler s r bHigh =
      (SyncResp.ok (formatHMS (parsedEpoch bHigh)), parsedEpoch bHigh, s) ∧
    syncStatusCode (syncTimeHandler s r bHigh).1 = 200 ∧
    (400 : Nat) ≠ 500 := by
  have hN : syncTimeHandler sN r bLow = (SyncResp.noRtc, r, sN) := by
    unfold syncTimeHandler
    rw [hrN]
    simp
  have hL : syncTimeHandler s r bLow = (SyncResp.invalid, r, s) := by
    unfold syncTimeHandler
    rw [hr]
    simp only [Bool.true_eq_false, if_false, reduceIte]
    unfold parsedEpoch at hlow
    cases hE : extractEpochStr bLow with
    | none => rfl
    | some t =>
      rw [hE] at hlow
      dsimp only at hlow ⊢
      rw [if_neg (by omega)]
  have hH : syncTimeHandler s r bHigh =
      (SyncResp.ok (formatHMS (parsedEpoch bHigh)), parsedEpoch bHigh, s) := by
    unfold syncTimeHandler
    rw [hr]
    simp only [Bool.true_eq_false, if_false, reduceIte]
    unfold parsedEpoch at hhigh ⊢
    cases hE : extractEpochStr bHigh with
    | none =>
      rw [hE] at hhigh
      dsimp only at hhigh
      omega
    | some t =>
      rw [hE] at hhigh
      dsimp only at hhigh ⊢
      rw [if_pos hhigh]
  refine ⟨hN, by simp [hN, syncStatusCode], hL, by simp [hL, syncStatusCode], hH,
         by simp [hH, syncStatusCode], by omega⟩

/-- Claim C7 witness: a body without an epoch field and a body carrying
epoch 1767225600, against devices with and without a clock source. -/
theorem C7_synctime_endpoint_witness :
    syncTimeHandler { bootState with rtcReady := false } 9 noEpochBody =
      (SyncResp.noRtc, 9, { bootState with rtcReady := false }) ∧
    syncTimeHandler bootState 9 noEpochBody = (SyncResp.invalid, 9, bootState) ∧
    syncTimeHandler bootState 9 goodEpochBody =
      (SyncResp.ok (formatHMS (parsedEpoch goodEpochBody)), parsedEpoch goodEpochBody,
        bootState) := by
  have h := C7_synctime_endpoint bootState { bootState with rtcReady := false } 9
    noEpochBody goodEpochBody rfl rfl (by decide) (by decide)
  exact ⟨h.1, h.2.2.1, h.2.2.2.2.1⟩

/-- Claim C8 counterexample.  The pull and push snapshots do not have the
same field set: the pull assembly omits the `calmHold` and
`degradeActive` fields that the push assembly appends. -/
theorem C8_schema_counterexample :
    (pushSnapshot 0 "" [0, 0, 0, 0, 0] [0, 0, 0, 0, 0] bootState).map Prod.fst ≠
      (pullSnapshot 0 "" [0, 0, 0, 0, 0] [0, 0, 0, 0, 0] bootState).map Prod.fst := by
  decide

/-- Claim C8 (amended).  For every device state and every sequence of
per-call clock reads, the pull snapshot is a strict prefix of the push
snapshot: both are computed by the identical assembly from the same state
and reads for all shared fields, and the push snapshot additionally
appends `calmHold` and `degradeActive` at the end, which the pull
endpoint omits. -/
theorem C8_pull_push_schema (uptime : Nat) (dateStr : String) (esA esB : List Nat)
    (s : DeviceState) :
    pushSnapshot uptime dateStr esA esB s =
      pullSnapshot uptime dateStr esA esB s ++
        [("calmHold", JVal.bool s.calmHoldActive),
         ("degradeActive", JVal.bool s.degradeActive)] := rfl

/-- Claim C9 counterexample.  Slot 0 tracks since epoch 10; the
books-array loop of one snapshot assembly reads epoch 100 from its
`getRTCEpoch()` calls (listing 90 s for the slot), but the subsequent
totals loop runs after the RTC second boundary and reads epoch 101, so
the very same snapshot carries totalStudySeconds = 91 while the sum of
its listed per-slot totalSeconds is 90: the per-call clock reads of the
source break the claimed intra-snapshot equality. -/
theorem C9_clock_tick_counterexample :
    ("books", JVal.arr (bookEntries [100, 100, 100, 100, 100] tickBooks)) ∈
      pushSnapshot 0 "" [100, 100, 100, 100, 100] [101, 101, 101, 101, 101]
        { bootState with books := tickBooks, currentBookCount := 1 } ∧
    ("totalStudySeconds",
        JVal.num (totalStudySecondsCode [101, 101, 101, 101, 101] tickBooks)) ∈
      pushSnapshot 0 "" [100, 100, 100, 100, 100] [101, 101, 101, 101, 101]
        { bootState with books := tickBooks, currentBookCount := 1 } ∧
    ((bookEntries [100, 100, 100, 100, 100] tickBooks).map BookEntry.totalSeconds).sum = 90 ∧
    totalStudySecondsCode [101, 101, 101, 101, 101] tickBooks = 91 ∧
    (91 : Nat) ≠ 90 := by
  decide

/-- Claim C9 (amended).  A snapshot is internally consistent only when no
RTC second boundary falls inside its assembly: whenever each totals-loop
`getRTCEpoch()` read observes the same epoch as the corresponding
books-loop read (`esB = esA`), the `totalStudySeconds` field equals the
u32 sum of the five per-slot `totalSeconds` values of the same snapshot
(the plain sum when it does not overflow u32); a second boundary between
the two loops during mid-accrual can make the two fields differ.
Independently of the clock reads, `booksPlaced` equals the number of
per-slot entries with `present = true` under the count invariant, which
every sampling pass re-establishes. -/
theorem C9_snapshot_consistency (uptime nE nM : Nat) (dateStr : String)
    (s t : DeviceState) (raws : List Bool) (esA esB : List Nat)
    (hb : s.books.length = 5)
    (hA : esA.length = 5)
    (hcnt : s.currentBookCount = s.books.countP (fun b => b.present))
    (hlen : raws.length = t.books.length) :
    ("books", JVal.arr (bookEntries esA s.books)) ∈
      pushSnapshot uptime dateStr esA esB s ∧
    ("totalStudySeconds", JVal.num (totalStudySecondsCode esB s.books)) ∈
      pullSnapshot uptime dateStr esA esB s ∧
    (esB = esA →
      totalStudySecondsCode esB s.books =
        ((bookEntries esA s.books).map BookEntry.totalSeconds).sum % u32size) ∧
    (esB = esA →
      ((bookEntries esA s.books).map BookEntry.totalSeconds).sum < u32size →
      totalStudySecondsCode esB s.books =
        ((bookEntries esA s.books).map BookEntry.totalSeconds).sum) ∧
    s.currentBookCount = (bookEntries esA s.books).countP (fun e => e.present) ∧
    (updateBookStates nM nE raws t).1.currentBookCount =
      (updateBookStates nM nE raws t).1.books.countP (fun b => b.present) := by
  have hle : s.books.length ≤ BOOK_NAMES.length := by
    rw [hb]
    decide
  have hle2 : s.books.length ≤ esA.length := by omega
  refine ⟨by simp [pushSnapshot], by simp [pullSnapshot], ?_, ?_, ?_, ?_⟩
  · intro hBA
    subst hBA
    rw [totalStudySecondsCode_eq]
    unfold bookEntries
    rw [bookEntries_total_sum BOOK_NAMES s.books esB hle]
  · intro hBA hov
    subst hBA
    rw [totalStudySecondsCode_eq]
    unfold bookEntries at hov ⊢
    rw [bookEntries_total_sum BOOK_NAMES s.books esB hle] at hov ⊢
    exact Nat.mod_eq_of_lt hov
  · unfold bookEntries
    rw [bookEntries_countP BOOK_NAMES s.books esA hle hle2]
    exact hcnt
  · rw [updateBookStates_count, updateBookStates_books]
    exact stepBooks_count_eq nE raws t.books hlen

/-- Claim C9 witness: a device with three books placed mid-accrual, all
ten clock reads observing epoch 2000, and one sampling pass over a fresh
device. -/
theorem C9_snapshot_consistency_witness :
    totalStudySecondsCode [2000, 2000, 2000, 2000, 2000]
        [⟨true, true, 1000, 5, true⟩, ⟨true, true, 1500, 0, true⟩, ⟨false, false, 0, 60, false⟩,
         ⟨true, true, 1999, 1, true⟩, ⟨false, false, 0, 0, false⟩] =
      ((bookEntries [2000, 2000, 2000, 2000, 2000]
        [⟨true, true, 1000, 5, true⟩, ⟨true, true, 1500, 0, true⟩, ⟨false, false, 0, 60, false⟩,
         ⟨true, true, 1999, 1, true⟩, ⟨false, false, 0, 0, false⟩]).map
          BookEntry.totalSeconds).sum ∧
    (3 : Nat) = (bookEntries [2000, 2000, 2000, 2000, 2000]
        [⟨true, true, 1000, 5, true⟩, ⟨true, true, 1500, 0, true⟩, ⟨false, false, 0, 60, false⟩,
         ⟨true, true, 1999, 1, true⟩, ⟨false, false, 0, 0, false⟩]).countP
          (fun e => e.present) ∧
    (updateBookStates 7 2000 [true, true, false, false, false] bootState).1.currentBookCount =
      (updateBookStates 7 2000 [true, true, false, false, false] bootState).1.books.countP
        (fun b => b.present) := by
  have h := C9_snapshot_consistency 0 2000 7 "x"
    { bootState with
        books := [⟨true, true, 1000, 5, true⟩, ⟨true, true, 1500, 0, true⟩,
                  ⟨false, false, 0, 60, false⟩, ⟨true, true, 1999, 1, true⟩,
                  ⟨false, false, 0, 0, false⟩],
        currentBookCount := 3 }
    bootState [true, true, false, false, false]
    [2000, 2000, 2000, 2000, 2000] [2000, 2000, 2000, 2000, 2000]
    rfl rfl (by decide) (by decide)
  exact ⟨h.2.2.2.1 rfl (by decide), h.2.2.2.2.1, h.2.2.2.2.2⟩

/-- Claim C10.  With no real-time source during the first second of uptime
`getRTCEpoch` returns 0; a slot placed then enters tracking with
`lastPlacedEpoch = 0`; both the live-total query and the later Removed
accrual treat `lastPlacedEpoch = 0` as not accruing, so the whole session
contributes 0 to `cumulativeSeconds` and to the live total at every later
clock value. -/
theorem C10_epoch_zero_session (b : BookState) (r m n1 n2 : Nat)
    (hm : m < 1000) (_ht : b.tracking = true) (hl : b.lastPlacedEpoch = 0) :
    getRTCEpoch false r m = 0 ∧
    (placeBook (getRTCEpoch false r m) b).lastPlacedEpoch = 0 ∧
    (placeBook (getRTCEpoch false r m) b).tracking = true ∧
    getBookTotalSeconds n1 b = b.cumulativeSeconds ∧
    (removeBook n2 b).cumulativeSeconds = b.cumulativeSeconds := by
  have h0 : getRTCEpoch false r m = 0 := by
    unfold getRTCEpoch
    simp [Nat.div_eq_of_lt hm]
  refine ⟨h0, by simp [placeBook, h0], by simp [placeBook], ?_, ?_⟩
  · unfold getBookTotalSeconds
    rw [if_neg (by simp [hl])]
  · unfold removeBook
    dsimp only
    rw [if_neg (by simp [hl])]

/-- Claim C10 witness: a slot tracked from epoch 0 with 7 s of earlier
accrual, queried at epoch 100 and removed at epoch 200, during the first
second of an RTC-less boot (millis = 500). -/
theorem C10_epoch_zero_session_witness :
    getRTCEpoch false 42 500 = 0 ∧
    getBookTotalSeconds 100 slotEpochZero = 7 ∧
    (removeBook 200 slotEpochZero).cumulativeSeconds = 7 := by
  have h := C10_epoch_zero_session slotEpochZero 42 500 100 200 (by decide) rfl rfl
  exact ⟨h.1, h.2.2.2.1, h.2.2.2.2⟩

end BookBuddy
